import Mathlib

/-
Shallow embedding of the request-construction dispatcher and streaming
response decoder from src/src/lib.rs (and src/src/models/mod.rs).

The repository references two modules whose source files are not present
under src/ (src/src/captioner.rs and src/src/models/claudev3.rs); the
data types they declare (Image, ClaudeV3Body, ClaudeV3Response, the
ClaudeV3Config defaults) are modelled from the spec and from their usage
sites in lib.rs, and are marked as such in their doc comments.

External collaborators (AWS transport, the streaming-capability query,
the on-disk config load) are modelled as explicit parameters: the loaded
defaults, the streaming-capability flag, the complete response payload,
and the list of inbound stream events are all inputs to the embedded
functions.  JSON byte payloads are modelled as a Payload value that is
either unparseable bytes or an already-parsed JSON tree; the serde parse
step of the source corresponds to the Payload.unparseable branch.
-/

namespace BedrockCaption

/-- A JSON value, standing in for serde_json::Value. -/
inductive Json where
  | null
  | bool (b : Bool)
  | num (n : Int)
  | str (s : String)
  | arr (items : List Json)
  | obj (fields : List (String × Json))

/-- Field lookup in a JSON object, standing in for serde_json Map::get. -/
def lookupField : List (String × Json) → String → Option Json
  | [], _ => none
  | (k, v) :: rest, key => if k = key then some v else lookupField rest key

/-- Modelled from the spec: the caller-supplied Image collaborator value
from src/src/captioner.rs (file missing from src/), an opaque pair of a
base64 payload and a file extension; field names are taken from the usage
sites in lib.rs (image.base64, image.extension). -/
structure Image where
  base64 : String
  extension : String
deriving DecidableEq

/-- ClaudeImageSource as used in lib.rs (declared in the missing
src/src/models/claudev3.rs); field names are exactly the ones written at
the construction sites in q_to_bcs_with_defaults. -/
structure ClaudeImageSource where
  image_type : String
  data : String
  media_type : String
deriving DecidableEq

/-- Modelled from the spec: the ClaudeV3Body request variant declared in
the missing src/src/models/claudev3.rs.  Per spec section 3 the variant
carries the protocol version string, max-token budget, role label,
content-type label, question text and optional image reference, matching
the six arguments of ClaudeV3Body::new in lib.rs. -/
structure ClaudeV3Body where
  anthropic_version : String
  max_tokens : Nat
  role : String
  content_type : String
  question : Option String
  image : Option ClaudeImageSource
deriving DecidableEq

/-- ClaudeV3Config defaults (declared in the missing claudev3.rs); field
names are exactly the ones read in q_to_bcs_with_defaults
(d.anthropic_version, d.max_tokens, d.role, d.default_content_type). -/
structure ClaudeV3Config where
  anthropic_version : String
  max_tokens : Nat
  role : String
  default_content_type : String
deriving DecidableEq

/-- ModelConfigs from src/src/models/mod.rs. -/
structure ModelConfigs where
  claude_v3 : ClaudeV3Config
deriving DecidableEq

/-- The first statically known model identifier of lib.rs. -/
def sonnetId : String := "anthropic.claude-3-sonnet-20240229-v1:0"

/-- The second statically known model identifier of lib.rs. -/
def haikuId : String := "anthropic.claude-3-haiku-20240307-v1:0"

/-- BedrockCall from lib.rs.  The body field holds the structured
ClaudeV3Body: the serialization step (ClaudeV3Body::convert_to_blob,
declared in the missing claudev3.rs) is modelled as carrying the
structured body unchanged, since no claim inspects the serialized
bytes. -/
structure BedrockCall where
  body : ClaudeV3Body
  content_type : String
  accept : String
  model_id : String
deriving DecidableEq

/-- BedrockCallSum from lib.rs: the sum type of per-model request
payloads, currently with the single Claude3BCS variant. -/
inductive BedrockCallSum where
  | Claude3BCS (model_id : String) (body : ClaudeV3Body)
deriving DecidableEq

/-- bcs_to_bedrock_call from lib.rs: wraps a BedrockCallSum into a
model-agnostic BedrockCall with fixed content type and accept values. -/
def bcs_to_bedrock_call : BedrockCallSum → BedrockCall
  | .Claude3BCS model_id body =>
    { body := body
      content_type := "application/json"
      accept := "*/*"
      model_id := model_id }

/-- Result of q_to_bcs_with_defaults.  The default arm of the source
match is todo!(), which panics at runtime; panicTodo records that
outcome.  The config-load failure path (load_config returning Err) is
factored out by passing the loaded ModelConfigs as a parameter. -/
inductive QtoBcsResult where
  | ok (bcs : BedrockCallSum)
  | panicTodo
deriving DecidableEq

/-- q_to_bcs_with_defaults from lib.rs: closed string dispatch on the
model identifier, building a ClaudeV3Body from the loaded defaults and
the optional image; any other identifier reaches todo!(). -/
def q_to_bcs_with_defaults (question : Option String) (model_id : String)
    (image : Option Image) (model_defaults : ModelConfigs) : QtoBcsResult :=
  if model_id = sonnetId then
    let claude_image : Option ClaudeImageSource :=
      match image with
      | some img =>
        some { image_type := "base64"
               data := img.base64
               media_type := "image/" ++ img.extension }
      | none => none
    let d := model_defaults.claude_v3
    .ok (.Claude3BCS sonnetId
      { anthropic_version := d.anthropic_version
        max_tokens := d.max_tokens
        role := d.role
        content_type := d.default_content_type
        question := question
        image := claude_image })
  else if model_id = haikuId then
    let claude_image : Option ClaudeImageSource :=
      match image with
      | some img =>
        some { image_type := "base64"
               data := img.base64
               media_type := "image/" ++ img.extension }
      | none => none
    let d := model_defaults.claude_v3
    .ok (.Claude3BCS haikuId
      { anthropic_version := d.anthropic_version
        max_tokens := d.max_tokens
        role := d.role
        content_type := d.default_content_type
        question := question
        image := claude_image })
  else
    .panicTodo

/-- Result of mk_bedrock_call: either a built call or the todo panic
propagated from q_to_bcs_with_defaults. -/
inductive MkCallResult where
  | ok (call : BedrockCall)
  | panicTodo
deriving DecidableEq

/-- mk_bedrock_call from lib.rs: builds the BedrockCallSum with defaults
and wraps it into a BedrockCall. -/
def mk_bedrock_call (question : String) (image : Option Image)
    (model_id : String) (model_defaults : ModelConfigs) : MkCallResult :=
  match q_to_bcs_with_defaults (some question) model_id image model_defaults with
  | .ok bcs => .ok (bcs_to_bedrock_call bcs)
  | .panicTodo => .panicTodo

/-- Modelled from the spec: one content item of the ClaudeV3Response
struct declared in the missing claudev3.rs, carrying a text field
(lib.rs reads res.content[0].text). -/
structure ClaudeV3Content where
  text : String
deriving DecidableEq

/-- Modelled from the spec: the ClaudeV3Response struct declared in the
missing claudev3.rs, carrying the list of content items. -/
structure ClaudeV3Response where
  content : List ClaudeV3Content
deriving DecidableEq

/-- Modelled from the spec: structured parse of one content item (an
object with a string text field). -/
def parseContentItem : Json → Option ClaudeV3Content
  | .obj fields =>
    match lookupField fields "text" with
    | some (.str t) => some { text := t }
    | _ => none
  | _ => none

/-- Parse every element of a JSON array as a content item; the whole
parse fails if any element fails, matching typed structured parsing. -/
def parseContentList : List Json → Option (List ClaudeV3Content)
  | [] => some []
  | j :: rest =>
    match parseContentItem j, parseContentList rest with
    | some c, some cs => some (c :: cs)
    | _, _ => none

/-- Modelled from the spec: parsing a complete payload as a
ClaudeV3Response.  Per spec section 4.4 the decoder parses the full
structured payload and extracts the first returned content item text
field, so a valid response for this family carries a content array with
at least one valid item; payloads without one do not parse. -/
def parseClaudeV3Response : Json → Option ClaudeV3Response
  | .obj fields =>
    match lookupField fields "content" with
    | some (.arr items) =>
      match parseContentList items with
      | some (c :: cs) => some { content := c :: cs }
      | _ => none
    | _ => none
  | _ => none

/-- Text of the first content item (lib.rs: res.content[0].text). -/
def firstText (r : ClaudeV3Response) : String :=
  match r.content with
  | c :: _ => c.text
  | [] => ""

/-- A byte payload as seen by process_response: either bytes that do not
parse as JSON at all, or the parsed JSON tree. -/
inductive Payload where
  | unparseable
  | json (j : Json)

/-- The streaming-branch body of process_response for the Claude family
(lib.rs lines 247-262): inspect the top-level object for a delta object,
then its type discriminator; exactly the text_delta case extracts the
text field, failing with the custom error "text" when that field is
missing or not a string; every other shape yields the empty string. -/
def claude_stream_extract (v : Json) : Except String String :=
  match v with
  | .obj fields =>
    match lookupField fields "delta" with
    | some (.obj delta) =>
      match lookupField delta "type" with
      | some (.str delta_type) =>
        if delta_type = "text_delta" then
          match lookupField delta "text" with
          | some (.str t) => .ok t
          | _ => .error "text"
        else
          .ok ""
      | _ => .ok ""
    | _ => .ok ""
  | _ => .ok ""

/-- process_response from lib.rs: per-model decode of a complete payload
(streaming = false) or of one streaming chunk (streaming = true).
Errors are serde_json::Error values in the source; they are modelled by
their message strings ("Unknown model ID" and "text" are the literal
custom messages of the source, "malformed" stands for a serde parse
failure message). -/
def process_response (model_id : String) (payload : Payload)
    (streaming : Bool) : Except String String :=
  if !streaming then
    if model_id = sonnetId ∨ model_id = haikuId then
      match payload with
      | .unparseable => .error "malformed"
      | .json j =>
        match parseClaudeV3Response j with
        | some r => .ok (firstText r)
        | none => .error "malformed"
    else
      .error "Unknown model ID"
  else
    if model_id = sonnetId ∨ model_id = haikuId then
      match payload with
      | .unparseable => .error "malformed"
      | .json j => claude_stream_extract j
    else
      .error "Unknown model ID"

/-- Whether a chunk is a well-formed text-delta claim: a top-level
object whose delta field is an object whose type discriminator is the
string text_delta.  Used to state the claims about the streaming
decoder; defined from the same shape checks the source performs. -/
def isTextDelta : Json → Bool
  | .obj fields =>
    match lookupField fields "delta" with
    | some (.obj delta) =>
      match lookupField delta "type" with
      | some (.str delta_type) => delta_type = "text_delta"
      | _ => false
    | _ => false
  | _ => false

/-- The extractable text of a delta chunk, when present as a string
(lib.rs: delta.get("text") followed by as_str). -/
def extractDeltaText : Json → Option String
  | .obj fields =>
    match lookupField fields "delta" with
    | some (.obj delta) =>
      match lookupField delta "text" with
      | some (.str t) => some t
      | _ => none
    | _ => none
  | _ => none

/-- RunType from lib.rs. -/
inductive RunType where
  | Standard
  | Captioning
deriving DecidableEq

/-- Result of call_bedrock together with what it wrote to standard
output (println in the Standard arm appends a newline). -/
structure CallResult where
  result : Except String String
  stdout : String

/-- call_bedrock from lib.rs restricted to its decode-and-echo logic:
the transport response body is the payload parameter.  On a successful
decode, Standard mode prints the text (with a trailing newline from
println) and Captioning mode prints nothing; a decode error is wrapped
into the message "Error processing response: ..." and returned. -/
def call_bedrock (model_id : String) (payload : Payload)
    (run_type : RunType) : CallResult :=
  match process_response model_id payload false with
  | .ok text =>
    match run_type with
    | .Captioning => { result := .ok text, stdout := "" }
    | .Standard => { result := .ok text, stdout := text ++ "\n" }
  | .error e =>
    { result := .error ("Error processing response: " ++ e), stdout := "" }

/-- One inbound event of the response stream: a content chunk whose byte
payload may be absent (payload_part.bytes is an Option in the source),
or any other event kind, which the source loop panics on. -/
inductive StreamEvent where
  | chunk (bytes : Option Payload)
  | other

/-- State of the streaming loop in call_bedrock_stream: the accumulated
output string, everything printed to standard output so far, and the
error lines logged to standard error. -/
structure StreamState where
  output : String
  stdout : String
  stderr : List String
deriving DecidableEq

/-- Result of running the streaming loop: the final state, or the panic
the source raises on an unexpected event type. -/
inductive StreamRes where
  | okState (s : StreamState)
  | panicked
deriving DecidableEq

/-- One iteration of the streaming loop of call_bedrock_stream (lib.rs
lines 310-327): a chunk with absent bytes is skipped, a decoded text is
appended to the output and printed, a decode error is logged to standard
error and the chunk dropped, and any non-chunk event panics. -/
def stream_step (model_id : String) (s : StreamState)
    (e : StreamEvent) : StreamRes :=
  match e with
  | .chunk none => .okState s
  | .chunk (some payload) =>
    match process_response model_id payload true with
    | .ok text =>
      .okState { output := s.output ++ text
                 stdout := s.stdout ++ text
                 stderr := s.stderr }
    | .error e =>
      .okState { s with stderr := s.stderr ++ ["Error processing response: " ++ e] }
  | .other => .panicked

/-- The streaming loop of call_bedrock_stream, folded over the inbound
events; a panic aborts the loop. -/
def run_stream (model_id : String) (s : StreamState) :
    List StreamEvent → StreamRes
  | [] => .okState s
  | e :: rest =>
    match stream_step model_id s e with
    | .okState s2 => run_stream model_id s2 rest
    | .panicked => .panicked

/-- call_bedrock_stream from lib.rs: run the loop from the empty state;
on normal termination return the accumulated output, after the final
println writes one more newline to standard output. -/
def call_bedrock_stream (model_id : String)
    (events : List StreamEvent) : StreamRes :=
  match run_stream model_id { output := "", stdout := "", stderr := [] } events with
  | .okState s => .okState { s with stdout := s.stdout ++ "\n" }
  | .panicked => .panicked

/-- Outcome of ask_bedrock: a returned text together with what the call
printed to standard output, a returned error, the process exit of the
captioning multimodal check, the todo panic of the request builder, or
the panic of the streaming loop on an unexpected event. -/
inductive AskOutcome where
  | ok (text : String) (stdout : String)
  | err (msg : String)
  | fatalExit (code : Nat) (msg : String)
  | panicTodo
  | panicStream
deriving DecidableEq

/-- The user-facing message printed before the captioning fatal exit
(lib.rs line 205). -/
def unsupportedModelMsg : String :=
  "🛑SORRY! The model you selected is not able to caption images. Please select either `claude-v3-sonnet` or `claude-v3-haiku`."

/-- The error returned when captioning is requested with no image
(lib.rs lines 213-215). -/
def noImageMsg : String := "No images provided. Captioning aborted."

/-- ask_bedrock from lib.rs.  Collaborator results are parameters: the
loaded defaults, the streaming-capability answer for this model, the
complete response payload of the non-streaming invoke, and the inbound
event list of the streaming invoke.  Standard mode builds the call
first, then branches on streaming capability; Captioning mode first
requires an image, then checks the multimodal set (exiting the process
otherwise), then builds, and always uses the non-streaming call. -/
def ask_bedrock (question : String) (image : Option Image)
    (model_id : String) (run_type : RunType)
    (model_defaults : ModelConfigs) (supportsStreaming : Bool)
    (completePayload : Payload) (streamEvents : List StreamEvent) : AskOutcome :=
  match run_type with
  | .Standard =>
    match mk_bedrock_call question image model_id model_defaults with
    | .panicTodo => .panicTodo
    | .ok bcall =>
      if supportsStreaming then
        match call_bedrock_stream bcall.model_id streamEvents with
        | .panicked => .panicStream
        | .okState s => .ok s.output s.stdout
      else
        let r := call_bedrock bcall.model_id completePayload .Standard
        match r.result with
        | .ok text => .ok text r.stdout
        | .error e => .err e
  | .Captioning =>
    match image with
    | some _ =>
      if model_id ≠ sonnetId ∧ model_id ≠ haikuId then
        .fatalExit 1 unsupportedModelMsg
      else
        match mk_bedrock_call question image model_id model_defaults with
        | .panicTodo => .panicTodo
        | .ok bcall =>
          let r := call_bedrock bcall.model_id completePayload .Captioning
          match r.result with
          | .ok text => .ok text r.stdout
          | .error e => .err e
    | none => .err noImageMsg

/-- The complete JSON response carrying one content item with the given
text, the shape of the single-shot response equivalent to a streamed
logical content (spec section 8 example: a content array with one text
object). -/
def mkCompleteResponse (t : String) : Json :=
  .obj [("content", .arr [.obj [("text", .str t)]])]

/-- Whether a payload parses as a valid structured ClaudeV3 response. -/
def payloadParses : Payload → Bool
  | .unparseable => false
  | .json j => (parseClaudeV3Response j).isSome

/-- Whether an Except result is a success. -/
def exceptOk : Except String String → Bool
  | .ok _ => true
  | .error _ => false

/-- Concrete defaults used to instantiate witnesses. -/
def exampleDefaults : ModelConfigs :=
  { claude_v3 :=
    { anthropic_version := "bedrock-2023-05-31"
      max_tokens := 1000
      role := "user"
      default_content_type := "text" } }

/-- The four chunks of the spec example streaming scenario. -/
def exampleChunks : List Json :=
  [ .obj [("type", .str "message_start")]
  , .obj [("delta", .obj [("type", .str "text_delta"), ("text", .str "Hel")])]
  , .obj [("delta", .obj [("type", .str "text_delta"), ("text", .str "lo")])]
  , .obj [("type", .str "message_stop")] ]

/-- Structural description of the streaming-branch decode: a chunk
whose shape is a text-delta claim decodes to its extractable text, or to
the custom error "text" when none is extractable; every other shape
decodes to the empty string. -/
theorem stream_extract_spec (j : Json) :
    claude_stream_extract j =
      (if isTextDelta j then
        match extractDeltaText j with
        | some t => Except.ok t
        | none => Except.error "text"
      else Except.ok "") := by
  cases j with
  | null => rfl
  | bool b => rfl
  | num n => rfl
  | str s => rfl
  | arr items => rfl
  | obj fields =>
    cases hdl : lookupField fields "delta" with
    | none => simp [claude_stream_extract, isTextDelta, extractDeltaText, hdl]
    | some dv =>
      cases dv with
      | null => simp [claude_stream_extract, isTextDelta, extractDeltaText, hdl]
      | bool b => simp [claude_stream_extract, isTextDelta, extractDeltaText, hdl]
      | num n => simp [claude_stream_extract, isTextDelta, extractDeltaText, hdl]
      | str s => simp [claude_stream_extract, isTextDelta, extractDeltaText, hdl]
      | arr items => simp [claude_stream_extract, isTextDelta, extractDeltaText, hdl]
      | obj delta =>
        cases hty : lookupField delta "type" with
        | none => simp [claude_stream_extract, isTextDelta, extractDeltaText, hdl, hty]
        | some tv =>
          cases tv with
          | null => simp [claude_stream_extract, isTextDelta, extractDeltaText, hdl, hty]
          | bool b => simp [claude_stream_extract, isTextDelta, extractDeltaText, hdl, hty]
          | num n => simp [claude_stream_extract, isTextDelta, extractDeltaText, hdl, hty]
          | arr items => simp [claude_stream_extract, isTextDelta, extractDeltaText, hdl, hty]
          | obj f2 => simp [claude_stream_extract, isTextDelta, extractDeltaText, hdl, hty]
          | str dt =>
            by_cases hdt : dt = "text_delta"
            · subst hdt
              cases htx : lookupField delta "text" with
              | none =>
                simp [claude_stream_extract, isTextDelta, extractDeltaText, hdl, hty, htx]
              | some xv =>
                cases xv <;>
                  simp [claude_stream_extract, isTextDelta, extractDeltaText, hdl, hty, htx]
            · simp [claude_stream_extract, isTextDelta, extractDeltaText, hdl, hty, hdt]

/-- Captioning mode of call_bedrock never writes to standard output. -/
theorem call_bedrock_captioning_stdout (model_id : String) (p : Payload) :
    (call_bedrock model_id p .Captioning).stdout = "" := by
  unfold call_bedrock
  cases hp : process_response model_id p false with
  | ok t => rfl
  | error e => rfl

/-- Along the streaming loop, the text printed to standard output always
equals the accumulated output string: every successfully decoded chunk
is echoed exactly once as it is produced. -/
theorem run_stream_stdout_tracks_output (model_id : String)
    (events : List StreamEvent) :
    ∀ s s2 : StreamState, s.stdout = s.output →
      run_stream model_id s events = .okState s2 → s2.stdout = s2.output := by
  induction events with
  | nil =>
    intro s s2 hinv hrun
    cases hrun
    exact hinv
  | cons e rest ih =>
    intro s s2 hinv hrun
    cases e with
    | other => exact absurd hrun (by simp [run_stream, stream_step])
    | chunk b =>
      cases b with
      | none => exact ih s s2 hinv (by simpa [run_stream, stream_step] using hrun)
      | some p =>
        cases hp : process_response model_id p true with
        | ok t =>
          refine ih _ s2 ?_ (by simpa [run_stream, stream_step, hp] using hrun)
          simp [hinv]
        | error e2 =>
          refine ih _ s2 ?_ (by simpa [run_stream, stream_step, hp] using hrun)
          simpa using hinv

/-- C1: the spec says an unknown model identifier makes the request
builder fail with an UnknownModelError carrying the identifier; the code
instead reaches the todo default arm of q_to_bcs_with_defaults, which
panics.  For every question, image and defaults, an identifier outside
the two known ones yields the todo panic, not an error return. -/
theorem C1_unknown_model_build_panics (question : Option String)
    (image : Option Image) (model_defaults : ModelConfigs) (model_id : String)
    (h1 : model_id ≠ sonnetId) (h2 : model_id ≠ haikuId) :
    q_to_bcs_with_defaults question model_id image model_defaults = .panicTodo := by
  unfold q_to_bcs_with_defaults
  rw [if_neg h1, if_neg h2]

/-- Witness for C1 at the concrete identifier foo. -/
theorem C1_unknown_model_build_panics_witness :
    "foo" ≠ sonnetId ∧ "foo" ≠ haikuId ∧
      q_to_bcs_with_defaults (some "q") "foo" none exampleDefaults = .panicTodo :=
  ⟨by decide, by decide,
    C1_unknown_model_build_panics (some "q") none exampleDefaults "foo"
      (by decide) (by decide)⟩

/-- C2: for a known identifier, whenever a sequence of streaming chunks
decodes chunk-by-chunk to a list of texts, the single-shot decode of the
equivalent complete response carrying the concatenated logical content
returns exactly that concatenation; and the four-chunk example scenario
decodes to ["", "Hel", "lo", ""], which joins to "Hello". -/
theorem C2_stream_concat_matches_complete (model_id : String)
    (hm : model_id = sonnetId ∨ model_id = haikuId)
    (chunks : List Json) (texts : List String)
    (hdec : List.Forall₂
      (fun c t => process_response model_id (.json c) true = .ok t) chunks texts) :
    process_response model_id (.json (mkCompleteResponse (String.join texts))) false
        = .ok (String.join texts) ∧
      exampleChunks.map (fun c => process_response model_id (.json c) true)
        = [.ok "", .ok "Hel", .ok "lo", .ok ""] ∧
      String.join ["", "Hel", "lo", ""] = "Hello" := by
  rcases hm with h | h <;> subst h <;> exact ⟨rfl, rfl, rfl⟩

/-- Witness for C2: the example chunk sequence together with its decoded
texts satisfies the chunk-by-chunk hypothesis, and the equivalent
complete response decodes to the concatenation "Hello". -/
theorem C2_stream_concat_matches_complete_witness :
    List.Forall₂
        (fun c t => process_response sonnetId (.json c) true = .ok t)
        exampleChunks ["", "Hel", "lo", ""] ∧
      process_response sonnetId
          (.json (mkCompleteResponse (String.join ["", "Hel", "lo", ""]))) false
        = .ok (String.join ["", "Hel", "lo", ""]) := by
  have hf : List.Forall₂
      (fun c t => process_response sonnetId (.json c) true = .ok t)
      exampleChunks ["", "Hel", "lo", ""] :=
    .cons rfl (.cons rfl (.cons rfl (.cons rfl .nil)))
  exact ⟨hf,
    (C2_stream_concat_matches_complete sonnetId (Or.inl rfl)
      exampleChunks ["", "Hel", "lo", ""] hf).1⟩

/-- C3: for a known identifier, a streaming chunk that parses as JSON
but is not a text-delta claim (no top-level delta object, or a delta
type other than text_delta) decodes to the empty string, never an error
and never partial text. -/
theorem C3_non_text_delta_yields_empty (model_id : String)
    (hm : model_id = sonnetId ∨ model_id = haikuId)
    (j : Json) (h : isTextDelta j = false) :
    process_response model_id (.json j) true = .ok "" := by
  have hex : claude_stream_extract j = .ok "" := by
    rw [stream_extract_spec, h]
    rfl
  rcases hm with h2 | h2 <;> subst h2 <;>
    simp [process_response, hex]

/-- Witness for C3 at the message_start chunk of the example. -/
theorem C3_non_text_delta_yields_empty_witness :
    isTextDelta (Json.obj [("type", Json.str "message_start")]) = false ∧
      process_response sonnetId
          (.json (Json.obj [("type", Json.str "message_start")])) true = .ok "" :=
  ⟨rfl, C3_non_text_delta_yields_empty sonnetId (Or.inl rfl)
    (Json.obj [("type", Json.str "message_start")]) rfl⟩

/-- C4: for a known identifier, a streaming chunk whose delta claims
type text_delta but has no extractable text field decodes to the custom
error "text"; in the streaming loop that error is only logged to
standard error, the accumulated output and the printed text are
unchanged, and the loop continues with the remaining events. -/
theorem C4_text_delta_missing_text (model_id : String)
    (hm : model_id = sonnetId ∨ model_id = haikuId)
    (j : Json) (hd : isTextDelta j = true) (ht : extractDeltaText j = none) :
    process_response model_id (.json j) true = .error "text" ∧
      ∀ (s : StreamState) (rest : List StreamEvent),
        run_stream model_id s (.chunk (some (.json j)) :: rest)
          = run_stream model_id
              { s with stderr := s.stderr ++ ["Error processing response: text"] } rest := by
  have herr : process_response model_id (.json j) true = .error "text" := by
    have hex : claude_stream_extract j = .error "text" := by
      rw [stream_extract_spec, hd, ht]
      rfl
    rcases hm with h2 | h2 <;> subst h2 <;> simp [process_response, hex]
  refine ⟨herr, ?_⟩
  intro s rest
  simp [run_stream, stream_step, herr]

/-- Witness for C4 at a chunk claiming text_delta without a text field:
the error is produced and an already-accumulated output "Hel" survives
unchanged with the error logged. -/
theorem C4_text_delta_missing_text_witness :
    isTextDelta (Json.obj [("delta", Json.obj [("type", Json.str "text_delta")])]) = true ∧
      process_response sonnetId
          (.json (Json.obj [("delta", Json.obj [("type", Json.str "text_delta")])])) true
        = .error "text" ∧
      run_stream sonnetId { output := "Hel", stdout := "Hel", stderr := [] }
          [.chunk (some (.json (Json.obj [("delta", Json.obj [("type", Json.str "text_delta")])])))]
        = .okState { output := "Hel", stdout := "Hel",
                     stderr := ["Error processing response: text"] } := by
  have h := C4_text_delta_missing_text sonnetId (Or.inl rfl)
    (Json.obj [("delta", Json.obj [("type", Json.str "text_delta")])]) rfl rfl
  refine ⟨rfl, h.1, ?_⟩
  rw [h.2 { output := "Hel", stdout := "Hel", stderr := [] } []]
  rfl

/-- C5: for each known identifier, the non-streaming decode returns the
text of the first content item whenever the payload parses as a valid
ClaudeV3 response, succeeds exactly on payloads that so parse (failing
with a malformed-response error otherwise), and decodes the example
payload with content text "A cat." to "A cat.". -/
theorem C5_complete_decode (model_id : String)
    (hm : model_id = sonnetId ∨ model_id = haikuId) :
    (∀ (j : Json) (r : ClaudeV3Response), parseClaudeV3Response j = some r →
        process_response model_id (.json j) false = .ok (firstText r)) ∧
      (∀ p : Payload, exceptOk (process_response model_id p false) = payloadParses p) ∧
      process_response model_id (.json (mkCompleteResponse "A cat.")) false
        = .ok "A cat." := by
  rcases hm with h | h <;> subst h <;>
    refine ⟨fun j r hr => by simp [process_response, hr], fun p => ?_, rfl⟩ <;>
    · cases p with
      | unparseable => rfl
      | json j =>
        cases hp : parseClaudeV3Response j <;>
          simp [process_response, payloadParses, exceptOk, hp]

/-- Witness for C5 at the sonnet identifier and the example payload. -/
theorem C5_complete_decode_witness :
    (sonnetId = sonnetId ∨ sonnetId = haikuId) ∧
      process_response sonnetId (.json (mkCompleteResponse "A cat.")) false
        = .ok "A cat." :=
  ⟨Or.inl rfl, (C5_complete_decode sonnetId (Or.inl rfl)).2.2⟩

/-- C6 counterexample: the claim says ask_bedrock builds the request
before the mode check, so that in Captioning mode an unknown identifier
surfaces as a build failure before the image-presence precondition.  At
the concrete input (question q, no image, unknown identifier) the call
instead returns the no-image precondition error, and does not reach the
builder (whose unknown-identifier outcome in this code is the todo
panic). -/
theorem C6_build_before_mode_check_counterexample :
    ask_bedrock "q" none "unknown-model" .Captioning exampleDefaults false
        .unparseable [] = .err noImageMsg ∧
      ask_bedrock "q" none "unknown-model" .Captioning exampleDefaults false
        .unparseable [] ≠ .panicTodo := by
  refine ⟨rfl, ?_⟩
  intro h
  rw [show ask_bedrock "q" none "unknown-model" .Captioning exampleDefaults false
      .unparseable [] = .err noImageMsg from rfl] at h
  exact AskOutcome.noConfusion h

/-- C6 amended: in Standard mode the request is built first, but in
Captioning mode both mode checks precede BuildRequest: with an unknown
identifier the outcome is the no-image error when the image is absent
and the fatal unsupported-model exit when it is present, so the request
builder (whose unknown-identifier outcome is the todo panic) is never
reached in Captioning mode. -/
theorem C6_mode_checks_precede_build (question : String) (image : Option Image)
    (model_id : String) (model_defaults : ModelConfigs) (ss : Bool)
    (cp : Payload) (se : List StreamEvent)
    (h1 : model_id ≠ sonnetId) (h2 : model_id ≠ haikuId) :
    ask_bedrock question image model_id .Captioning model_defaults ss cp se
        = (match image with
           | none => .err noImageMsg
           | some _ => .fatalExit 1 unsupportedModelMsg) ∧
      ask_bedrock question image model_id .Captioning model_defaults ss cp se
        ≠ .panicTodo := by
  have hmain : ask_bedrock question image model_id .Captioning model_defaults ss cp se
      = (match image with
         | none => .err noImageMsg
         | some _ => .fatalExit 1 unsupportedModelMsg) := by
    cases image with
    | none => rfl
    | some img =>
      unfold ask_bedrock
      rw [if_pos ⟨h1, h2⟩]
  refine ⟨hmain, ?_⟩
  intro h
  rw [hmain] at h
  cases image with
  | none => exact AskOutcome.noConfusion h
  | some img => exact AskOutcome.noConfusion h

/-- Witness for C6 amended at the unknown identifier foo with an image
present. -/
theorem C6_mode_checks_precede_build_witness :
    "foo" ≠ sonnetId ∧ "foo" ≠ haikuId ∧
      ask_bedrock "q" (some { base64 := "x", extension := "png" }) "foo"
          .Captioning exampleDefaults false .unparseable []
        = .fatalExit 1 unsupportedModelMsg :=
  ⟨by decide, by decide,
    (C6_mode_checks_precede_build "q" (some { base64 := "x", extension := "png" })
      "foo" exampleDefaults false .unparseable [] (by decide) (by decide)).1⟩

/-- C7: a Captioning invocation with no image always returns the
no-image precondition error, for every model identifier (known or not),
every defaults value and every collaborator response: no request is
built or dispatched. -/
theorem C7_captioning_without_image (question : String) (model_id : String)
    (model_defaults : ModelConfigs) (ss : Bool) (cp : Payload)
    (se : List StreamEvent) :
    ask_bedrock question none model_id .Captioning model_defaults ss cp se
      = .err noImageMsg := rfl

/-- C8: a Captioning invocation with an image present and a model
identifier outside the two known ones always takes the fatal path:
the process exits with code 1 after printing the user-facing message
naming the two supported models, never returning a text result and
never a recoverable error. -/
theorem C8_captioning_unsupported_model_fatal (question : String) (img : Image)
    (model_id : String) (model_defaults : ModelConfigs) (ss : Bool)
    (cp : Payload) (se : List StreamEvent)
    (h1 : model_id ≠ sonnetId) (h2 : model_id ≠ haikuId) :
    ask_bedrock question (some img) model_id .Captioning model_defaults ss cp se
      = .fatalExit 1 unsupportedModelMsg := by
  unfold ask_bedrock
  rw [if_pos ⟨h1, h2⟩]

/-- Witness for C8 at the unknown identifier foo. -/
theorem C8_captioning_unsupported_model_fatal_witness :
    "foo" ≠ sonnetId ∧ "foo" ≠ haikuId ∧
      ask_bedrock "q" (some { base64 := "x", extension := "png" }) "foo"
          .Captioning exampleDefaults false .unparseable []
        = .fatalExit 1 unsupportedModelMsg :=
  ⟨by decide, by decide,
    C8_captioning_unsupported_model_fatal "q" { base64 := "x", extension := "png" }
      "foo" exampleDefaults false .unparseable [] (by decide) (by decide)⟩

/-- C9: successfully decoded text reaches standard output exactly in
Standard mode: the non-streaming call echoes the decoded text (with a
newline) in Standard mode and prints nothing in Captioning mode; along
the streaming loop the printed text always equals the accumulated
output, chunk by chunk; and a Captioning invocation that returns a text
result has an empty standard-output trace. -/
theorem C9_stdout_written_only_in_standard :
    (∀ (model_id : String) (p : Payload) (t : String),
        process_response model_id p false = .ok t →
        call_bedrock model_id p .Standard = { result := .ok t, stdout := t ++ "\n" }) ∧
      (∀ (model_id : String) (p : Payload),
        (call_bedrock model_id p .Captioning).stdout = "") ∧
      (∀ (model_id : String) (events : List StreamEvent) (s s2 : StreamState),
        s.stdout = s.output → run_stream model_id s events = .okState s2 →
        s2.stdout = s2.output) ∧
      (∀ (question : String) (image : Option Image) (model_id : String)
          (model_defaults : ModelConfigs) (ss : Bool) (cp : Payload)
          (se : List StreamEvent) (t out : String),
        ask_bedrock question image model_id .Captioning model_defaults ss cp se
          = .ok t out → out = "") := by
  refine ⟨fun model_id p t h => by simp [call_bedrock, h],
    call_bedrock_captioning_stdout,
    fun model_id events s s2 hinv hrun =>
      run_stream_stdout_tracks_output model_id events s s2 hinv hrun,
    ?_⟩
  intro question image model_id model_defaults ss cp se t out h
  cases image with
  | none =>
    rw [show ask_bedrock question none model_id .Captioning model_defaults ss cp se
        = .err noImageMsg from rfl] at h
    exact AskOutcome.noConfusion h
  | some img =>
    unfold ask_bedrock at h
    by_cases hk : model_id ≠ sonnetId ∧ model_id ≠ haikuId
    · rw [if_pos hk] at h
      exact AskOutcome.noConfusion h
    · rw [if_neg hk] at h
      cases hmk : mk_bedrock_call question (some img) model_id model_defaults with
      | panicTodo =>
        rw [hmk] at h
        exact AskOutcome.noConfusion h
      | ok bcall =>
        rw [hmk] at h
        cases hc : (call_bedrock bcall.model_id cp .Captioning).result with
        | ok text =>
          simp only [hc] at h
          have hout := (AskOutcome.ok.injEq _ _ _ _).mp h
          rw [← hout.2, call_bedrock_captioning_stdout]
        | error e =>
          simp only [hc] at h
          exact AskOutcome.noConfusion h

/-- Witness for C9: the Standard-mode echo at the example payload. -/
theorem C9_stdout_written_only_in_standard_witness :
    process_response sonnetId (.json (mkCompleteResponse "A cat.")) false
        = .ok "A cat." ∧
      call_bedrock sonnetId (.json (mkCompleteResponse "A cat.")) .Standard
        = { result := .ok "A cat.", stdout := "A cat." ++ "\n" } :=
  ⟨rfl, C9_stdout_written_only_in_standard.1 sonnetId
    (.json (mkCompleteResponse "A cat.")) "A cat." rfl⟩

/-- C10: in the streaming loop a content chunk with absent bytes is
silently skipped: the step leaves the state (output, printed text,
logged errors) unchanged and the loop simply continues with the
remaining events. -/
theorem C10_absent_bytes_silently_skipped (model_id : String)
    (s : StreamState) (rest : List StreamEvent) :
    stream_step model_id s (.chunk none) = .okState s ∧
      run_stream model_id s (.chunk none :: rest) = run_stream model_id s rest :=
  ⟨rfl, rfl⟩

end BedrockCaption
